import Mathlib

/-!
Shallow embedding of `ipecmd_wrapper` (src/ipecmd_wrapper/core.py and cli.py).

Python strings are modelled as Lean `String`; Python's code-point slicing
`s[:n]` / `s[n:]` is modelled by `strTake` / `strDrop` below.  Optional
Python values (`None`) become `Option`; Python truthiness of an optional
string (`if args.file:`) is "is `some` of a non-empty string".  Fallible
dictionary lookup (`TOOL_MAP[tool]`, raising `KeyError`) returns `Option`.
Filesystem facts and subprocess outcomes are inputs to the embedded
functions: a `SpawnOutcome` is what `subprocess.run` produced (a return
code with captured output) or the exception it raised.
-/

/-- Python slice `s[:n]` (by code points). -/
def strTake (s : String) (n : Nat) : String := ⟨s.data.take n⟩

/-- Python slice `s[n:]` (by code points). -/
def strDrop (s : String) (n : Nat) : String := ⟨s.data.drop n⟩

/-- `(s ++ t).data = s.data ++ t.data`. -/
theorem data_append (s t : String) : (s ++ t).data = s.data ++ t.data := by
  cases s; cases t; rfl

theorem string_ext {s t : String} (h : s.data = t.data) : s = t := by
  cases s; cases t; exact congrArg String.mk h

/-- Two strings differing at some position stay different after appending. -/
theorem append_ne_append {p q : String} (s v : String) (i : Nat)
    (hip : i < p.data.length) (hiq : i < q.data.length)
    (h : p.data[i]? ≠ q.data[i]?) : p ++ s ≠ q ++ v := by
  intro he
  apply h
  have hd := congrArg String.data he
  rw [data_append, data_append] at hd
  rw [← List.getElem?_append_left hip, ← List.getElem?_append_left hiq, hd]

/-- A string differing from `q` at a position inside `q` differs from
`q ++ v` for every `v`. -/
theorem ne_append_right {s q : String} (v : String) (i : Nat)
    (hiq : i < q.data.length) (h : s.data[i]? ≠ q.data[i]?) : s ≠ q ++ v := by
  intro he
  apply h
  rw [he, data_append, List.getElem?_append_left hiq]

/-- Available tool choices (`TOOL_CHOICES` in core.py). -/
def TOOL_CHOICES : List String :=
  ["PK3", "PK4", "PK5", "ICD3", "ICD4", "ICD5", "ICE4", "RICE", "SNAP",
   "PM3", "PKOB", "PKOB4", "J32"]

/-- Available version choices (`VERSION_CHOICES` in core.py). -/
def VERSION_CHOICES : List String :=
  ["5.50", "6.00", "6.05", "6.10", "6.15", "6.20", "6.25"]

/-- The tool-name → IPECMD-option dictionary `TOOL_MAP` of core.py;
`none` models the `KeyError` a missing key raises. -/
def TOOL_MAP : String → Option String
  | "PK3" => some "TPPK3"
  | "PK4" => some "TPPK4"
  | "PK5" => some "TPPK5"
  | "ICD3" => some "TPICD3"
  | "ICD4" => some "TPICD4"
  | "ICD5" => some "TPICD5"
  | "ICE4" => some "TPICE4"
  | "RICE" => some "TPRICE"
  | "SNAP" => some "TPSNAP"
  | "PM3" => some "TPPM3"
  | "PKOB" => some "TPPKOB"
  | "PKOB4" => some "TPPKOB4"
  | "J32" => some "TPJ32"
  | _ => none

/-- The fields of the `args` object consumed by `build_ipecmd_command`
(core.py).  `file` and `power` are optional strings (`None` in the CLI when
absent); `memory` and `verify` default to the empty string. -/
structure Args where
  tool : String
  part : String
  file : Option String
  memory : String
  verify : String
  power : Option String
  erase : Bool
  vdd_first : Bool
  logout : Bool

/-- Python truthiness of an optional string: `None` and `""` are falsy. -/
def optTruthy : Option String → Bool
  | none => false
  | some s => s ≠ ""

theorem optTruthy_none : optTruthy none = false := rfl

/-- `build_ipecmd_command(args, ipecmd_path)` of core.py: the IPECMD token
list.  `none` models the `KeyError` on a tool name outside `TOOL_MAP`. -/
def build_ipecmd_command (args : Args) (ipecmd_path : String) :
    Option (List String) :=
  match TOOL_MAP args.tool with
  | none => none
  | some tool_option =>
    some ([ipecmd_path]
      ++ ["-" ++ tool_option]
      ++ (if strTake args.part 3 = "PIC" then ["-P" ++ strDrop args.part 3]
          else ["-P" ++ args.part])
      ++ (match args.file with
          | some f => if f ≠ "" then ["-F" ++ f] else []
          | none => [])
      ++ (if args.memory ≠ "" then ["-M" ++ args.memory] else ["-M"])
      ++ (if args.verify ≠ "" then ["-Y" ++ args.verify] else [])
      ++ (match args.power with
          | some p => if p ≠ "" then ["-W" ++ p] else []
          | none => [])
      ++ (if args.erase then ["-E"] else [])
      ++ (if args.vdd_first then ["-OD"] else [])
      ++ (if args.logout then ["-OL"] else []))

example :
    build_ipecmd_command
      ⟨"PK3", "PIC16F876A", some "test.hex", "", "", some "5.0",
       false, false, false⟩ "ipecmd.exe" =
    some ["ipecmd.exe", "-TPPK3", "-P16F876A", "-Ftest.hex", "-M", "-W5.0"] := by
  decide

/-- What `subprocess.run` yielded for one spawn: either a completed process
(return code plus captured output) or the exception it raised. -/
inductive SpawnOutcome where
  | ok (returncode : Int) (stdout stderr : String)
  | exc (message : String)
deriving DecidableEq

/-- `execute_programming(cmd_args, part, tool, ipecmd_version)` of core.py,
with the child-process outcome as an explicit input: returns `true` exactly
when the process completed with return code 0; an exception while spawning
is caught and reported as `false`. -/
def execute_programming (cmd_args : List String) (part tool : String)
    (ipecmd_version : Option String) (outcome : SpawnOutcome) : Bool :=
  match outcome with
  | .ok returncode _ _ => returncode == 0
  | .exc _ => false

/-- The probe command `test_cmd` built by `detect_programmer` in core.py;
`none` models the `KeyError` on a tool name outside `TOOL_MAP`. -/
def detect_programmer_test_cmd (ipecmd_path part tool : String) :
    Option (List String) :=
  (TOOL_MAP tool).map fun tool_option =>
    [ipecmd_path, "-" ++ tool_option, "-P" ++ part, "-OK"]

/-- The boolean result of `detect_programmer` of core.py, given the probe
subprocess outcome: non-zero return code or a spawn exception is `false`. -/
def detect_programmer_result (outcome : SpawnOutcome) : Bool :=
  match outcome with
  | .ok returncode _ _ => returncode == 0
  | .exc _ => false

/-- Python `list.index` on a list of strings (only called on members). -/
def list_index : List String → String → Nat
  | [], _ => 0
  | y :: ys, x => if y = x then 0 else 1 + list_index ys x

/-- `_get_version_suggestions(current_version)` of core.py. -/
def _get_version_suggestions (current_version : String) : List String :=
  if ¬ (current_version ∈ VERSION_CHOICES) then []
  else
    let current_index := list_index VERSION_CHOICES current_version
    let latest := VERSION_CHOICES.getLastD ""
    let s1 : List String :=
      if current_version ≠ latest then [latest] else []
    let s2 : List String :=
      if 0 < current_index ∧
          VERSION_CHOICES.getD (current_index - 1) "" ∉ s1 then
        s1 ++ [VERSION_CHOICES.getD (current_index - 1) ""]
      else s1
    let s3 : List String :=
      if current_index < VERSION_CHOICES.length - 1 ∧
          VERSION_CHOICES.getD (current_index + 1) "" ∉ s2 then
        s2 ++ [VERSION_CHOICES.getD (current_index + 1) ""]
      else s2
    s3.take 2

example : _get_version_suggestions "5.50" = ["6.25", "6.00"] := by decide
example : _get_version_suggestions "6.25" = ["6.20"] := by decide
example : _get_version_suggestions "6.20" = ["6.25", "6.15"] := by decide
example : _get_version_suggestions "7.00" = [] := by decide

/-- The shell metacharacters denied by `is_safe_passthrough` (core.py),
i.e. the character class of the regex it searches for. -/
def dangerous_chars : List Char := ";&|`$><".data

/-- `is_safe_passthrough(passthrough)` of core.py: `re.search` over the
character class succeeds exactly when some character of the string is in
the class. -/
def is_safe_passthrough (passthrough : String) : Bool :=
  ! (passthrough.data.any fun c => dangerous_chars.contains c)

example : is_safe_passthrough "-K -I" = true := by decide
example : is_safe_passthrough "-K; rm" = false := by decide

/-- `run_cmd_with_passthrough_option(args)` of core.py, observed at the
point just before `subprocess.run`: `Except.error` is a `ValueError`
raised before the spawn — the safety gate's on unsafe input, or the one
`shlex.split` raises on malformed quoting (line 419, outside the try
block).  `Except.ok` carries the spawned token list.  `split` stands for
`shlex.split`, its `none` being that `ValueError`; the gate rejects
unsafe input without consulting it. -/
def run_cmd_with_passthrough_option (split : String → Option (List String))
    (ipecmd_path : String) (passthrough : String) :
    Except String (List String) :=
  if is_safe_passthrough passthrough = false then
    Except.error "Unsafe passthrough argument"
  else
    match split passthrough with
    | none => Except.error "No closing quotation"
    | some toks => Except.ok (ipecmd_path :: toks)

/-- The three platform branches of core.py (`sys.platform`). -/
inductive OS where
  | win32
  | darwin
  | linux
deriving DecidableEq

/-- The per-OS base directory used by `get_ipecmd_path` (core.py). -/
def os_base_dir : OS → String
  | .win32 => "C:/Program Files/Microchip/MPLABX"
  | .darwin => "/Applications/microchip/mplabx"
  | .linux => "/opt/microchip/mplabx"

/-- The per-OS executable filename used by `get_ipecmd_path` (core.py). -/
def os_exe_name : OS → String
  | .win32 => "ipecmd.exe"
  | _ => "ipecmd"

/-- `get_ipecmd_path(version, custom_path)` of core.py (result of
`Path.as_posix`), with the platform and the auto-detection result as
explicit inputs.  `Except.error` is the `ValueError` raised when neither a
custom path nor a version is available. -/
def get_ipecmd_path (os : OS) (version custom_path : Option String)
    (detected : Option String) : Except String String :=
  match custom_path with
  | some p => Except.ok p
  | none =>
    let target_version :=
      match version with
      | some v => some v
      | none => detected
    match target_version with
    | none => Except.error "No MPLAB X IDE installation found"
    | some tv =>
      Except.ok (os_base_dir os ++ "/v" ++ tv ++ "/mplab_platform/mplab_ipe/"
        ++ os_exe_name os)

example :
    get_ipecmd_path .linux (some "6.20") none none =
    Except.ok "/opt/microchip/mplabx/v6.20/mplab_platform/mplab_ipe/ipecmd" := by
  rfl

/-- `proc_success r`: the spawn completed with return code 0 (the success
criterion both executors of core.py apply to `subprocess.run`). -/
def proc_success : SpawnOutcome → Bool
  | .ok returncode _ _ => returncode == 0
  | .exc _ => false

/-- The return behaviour of `run_cmd_with_passthrough_option` (core.py):
`Except.error` is a `ValueError` raised before the spawn — the safety
gate's on unsafe input, or the one `shlex.split` raises on malformed
quoting (line 419, outside the try block).  Once the spawn point is
reached the function returns `None` whatever the subprocess did: the
return code is never inspected and a spawn exception is caught and only
logged. -/
def run_cmd_passthrough_returns (split : String → Option (List String))
    (ipecmd_path passthrough : String) (outcome : SpawnOutcome) :
    Except String Unit :=
  if is_safe_passthrough passthrough = false then
    Except.error "Unsafe passthrough argument"
  else
    match split passthrough with
    | none => Except.error "No closing quotation"
    | some _ =>
      match outcome with
      | .ok _ _ _ => Except.ok ()
      | .exc _ => Except.ok ()

/-- The arguments `program_pic` (core.py) reads beyond those of
`build_ipecmd_command`. -/
structure PicArgs where
  toArgs : Args
  test_programmer : Bool
  ipecmd_version : Option String
  ipecmd_path : Option String

/-- How a call of `program_pic` (core.py) terminates: normal return,
`sys.exit(code)`, or a propagated `KeyError` from `TOOL_MAP` lookup. -/
inductive PicResult where
  | ok
  | exited (code : Nat)
  | keyError
deriving DecidableEq

/-- The ipecmd-path determination at the top of `program_pic` (core.py):
explicit path wins, then an explicit version, then the auto-detected
version; `none` is the `sys.exit(1)` when nothing is available. -/
def pic_resolve_path (os : OS) (args : PicArgs) (detected : Option String) :
    Option String :=
  if optTruthy args.ipecmd_path then args.ipecmd_path
  else if optTruthy args.ipecmd_version then
    match get_ipecmd_path os args.ipecmd_version none detected with
    | .ok p => some p
    | .error _ => none
  else
    match detected with
    | some dv =>
      match get_ipecmd_path os (some dv) none detected with
      | .ok p => some p
      | .error _ => none
    | none => none

/-- `program_pic(args)` of core.py.  Environment facts are explicit inputs:
`detected` is what `detect_latest_ipecmd_version()` would return,
`hex_exists` and `ipecmd_exists` are the filesystem checks of
`validate_hex_file` / `validate_ipecmd`, and the two `SpawnOutcome`s are
the probe and programming subprocesses. -/
def program_pic (os : OS) (args : PicArgs) (detected : Option String)
    (hex_exists ipecmd_exists : Bool)
    (detect_outcome prog_outcome : SpawnOutcome) : PicResult :=
  match pic_resolve_path os args detected with
  | none => .exited 1
  | some ipecmd_path =>
    if optTruthy args.toArgs.file ∧ hex_exists = false then .exited 1
    else if ipecmd_exists = false then .exited 1
    else if args.test_programmer ∧ (TOOL_MAP args.toArgs.tool).isNone then
      .keyError
    else if args.test_programmer ∧ detect_programmer_result detect_outcome = false then
      .exited 1
    else
      match build_ipecmd_command args.toArgs ipecmd_path with
      | none => .keyError
      | some cmd =>
        let version_for_errors :=
          (if optTruthy args.ipecmd_path ∨ optTruthy args.ipecmd_version
           then none else detected).orElse fun _ => args.ipecmd_version
        if execute_programming cmd args.toArgs.part args.toArgs.tool
            version_for_errors prog_outcome then .ok
        else .exited 1

/-- Success of `program_pic` past path resolution, stated declaratively:
hex check passed when a file was given, executable check passed, probe
passed when requested, tool known to `TOOL_MAP`, programming subprocess
returned 0. -/
def pic_normal_success (args : PicArgs) (hex_exists ipecmd_exists : Bool)
    (detect_outcome prog_outcome : SpawnOutcome) : Bool :=
  (!(optTruthy args.toArgs.file) || hex_exists) &&
  ipecmd_exists &&
  (!args.test_programmer || proc_success detect_outcome) &&
  (TOOL_MAP args.toArgs.tool).isSome &&
  proc_success prog_outcome

/-- The option values `cli.main` (cli.py) receives after typer parsing. -/
structure CliOpts where
  part : Option String
  tool : Option String
  file : Option String
  power : Option String
  memory : String
  verify : String
  erase : Bool
  logout : Bool
  vdd_first : Bool
  test_programmer : Bool
  ipecmd_version : Option String
  ipecmd_path : Option String
  passthrough : Option String

/-- Environment facts consumed during one `cli.main` invocation:
the `autodetect_ipecmd()` result, the `detect_latest_ipecmd_version()`
result, the two filesystem checks, and the three possible subprocess
outcomes (probe, programming, passthrough). -/
structure CliEnv where
  autodetected : Option (String × String)
  detected_version : Option String
  hex_exists : Bool
  ipecmd_exists : Bool
  detect_outcome : SpawnOutcome
  prog_outcome : SpawnOutcome
  pass_outcome : SpawnOutcome

/-- How `cli.main` turns a `program_pic` call into a process exit code:
a normal return exits 0, `SystemExit` (sys.exit) propagates its code, and
a propagated exception is caught by the `except` blocks and mapped to
`typer.Exit(1)`. -/
def pic_exit_code : PicResult → Nat
  | .ok => 0
  | .exited code => code
  | .keyError => 1

/-- How `cli.main` turns the passthrough call into a process exit code:
a `ValueError` is caught and mapped to exit 1; otherwise `typer.Exit()`
(exit 0) follows, the subprocess outcome never being consulted. -/
def passthrough_exit_code (split : String → Option (List String))
    (ipecmd_path passthrough : String) (outcome : SpawnOutcome) : Nat :=
  match run_cmd_passthrough_returns split ipecmd_path passthrough outcome with
  | .error _ => 1
  | .ok _ => 0

/-- The process exit code of `cli.main` (cli.py): 0 for a normal return or
`typer.Exit()`, the carried code for `typer.Exit(1)`/`sys.exit(1)`, 1 when
an exception is caught by the `except` blocks.  The `--version` and
`--ipecmd-help` early exits are outside this model. -/
def cli_main_exit_code (os : OS) (split : String → Option (List String))
    (opts : CliOpts) (env : CliEnv) : Nat :=
  let auto : Option (String × String) :=
    if ¬ optTruthy opts.ipecmd_version ∧ ¬ optTruthy opts.ipecmd_path then
      env.autodetected
    else none
  if ¬ optTruthy opts.ipecmd_version ∧ ¬ optTruthy opts.ipecmd_path ∧
      ¬ optTruthy (auto.map Prod.fst) then 1
  else
    let eff_version : Option String :=
      if optTruthy opts.ipecmd_version then opts.ipecmd_version
      else auto.map Prod.fst
    let eff_path : Option String :=
      if optTruthy opts.ipecmd_path then opts.ipecmd_path
      else auto.map Prod.snd
    if optTruthy opts.passthrough then
      passthrough_exit_code split (eff_path.getD "")
        (opts.passthrough.getD "") env.pass_outcome
    else
      match opts.part, opts.tool with
      | some part, some tool =>
        pic_exit_code (program_pic os
          ⟨⟨tool, part, opts.file, opts.memory, opts.verify, opts.power,
            opts.erase, opts.vdd_first, opts.logout⟩,
           opts.test_programmer, eff_version, eff_path⟩
          env.detected_version env.hex_exists env.ipecmd_exists
          env.detect_outcome env.prog_outcome)
      | _, _ => 1

/-- Success of the programming flow of `cli.main`, stated declaratively:
part and tool present, hex file check passed (when a file was given),
executable check passed, probe passed (when requested), tool known to
`TOOL_MAP`, and the programming subprocess returned 0. -/
def cli_normal_success (opts : CliOpts) (env : CliEnv) : Bool :=
  opts.part.isSome && opts.tool.isSome &&
  (!(optTruthy opts.file) || env.hex_exists) &&
  env.ipecmd_exists &&
  (!opts.test_programmer || proc_success env.detect_outcome) &&
  (TOOL_MAP (opts.tool.getD "")).isSome &&
  proc_success env.prog_outcome

/-- Success of one `cli.main` invocation, stated declaratively: a tool
location is available (explicit version, explicit path, or a truthy
auto-detected version), and then either the passthrough string passes the
safety gate and tokenizes (its subprocess outcome being ignored) or the
programming flow succeeds. -/
def cli_success (split : String → Option (List String))
    (opts : CliOpts) (env : CliEnv) : Bool :=
  (optTruthy opts.ipecmd_version || optTruthy opts.ipecmd_path ||
    optTruthy (env.autodetected.map Prod.fst)) &&
  (if optTruthy opts.passthrough then
    is_safe_passthrough (opts.passthrough.getD "") &&
      (split (opts.passthrough.getD "")).isSome
   else cli_normal_success opts env)

theorem strTake_PIC (r : String) : strTake ("PIC" ++ r) 3 = "PIC" := by
  apply string_ext
  show (("PIC" ++ r).data).take 3 = "PIC".data
  rw [data_append]
  rfl

theorem strDrop_PIC (r : String) : strDrop ("PIC" ++ r) 3 = r := by
  apply string_ext
  show (("PIC" ++ r).data).drop 3 = r.data
  rw [data_append]
  rfl

theorem strTake_append_strDrop (s : String) (n : Nat) :
    strTake s n ++ strDrop s n = s := by
  apply string_ext
  rw [data_append]
  exact List.take_append_drop n s.data

/-- C2: the part-select token built by `build_ipecmd_command` is the part
identifier with a leading "PIC" prefix stripped when the identifier begins
with "PIC", and the identifier unchanged otherwise (token 2 of the list). -/
theorem build_part_token_normalized (args : Args) (path : String)
    (cmd : List String) (hb : build_ipecmd_command args path = some cmd) :
    (∀ r, args.part = "PIC" ++ r → cmd[2]? = some ("-P" ++ r)) ∧
    ((∀ r, args.part ≠ "PIC" ++ r) → cmd[2]? = some ("-P" ++ args.part)) := by
  unfold build_ipecmd_command at hb
  cases htool : TOOL_MAP args.tool with
  | none => rw [htool] at hb; cases hb
  | some topt =>
    rw [htool] at hb
    injection hb with hb
    subst hb
    constructor
    · intro r hr
      rw [hr, strTake_PIC, if_pos rfl, strDrop_PIC]
      simp [List.append_assoc]
    · intro hnr
      have hne : strTake args.part 3 ≠ "PIC" := by
        intro heq
        exact hnr (strDrop args.part 3)
          (by rw [← heq, strTake_append_strDrop])
      rw [if_neg hne]
      simp [List.append_assoc]

theorem build_part_token_normalized_witness :
    (build_ipecmd_command
      ⟨"PK4", "PIC18F4550", some "program.hex", "P", "P", some "3.3",
       true, true, true⟩ "ipecmd.exe" =
      some ["ipecmd.exe", "-TPPK4", "-P18F4550", "-Fprogram.hex", "-MP",
            "-YP", "-W3.3", "-E", "-OD", "-OL"]) ∧
    (["ipecmd.exe", "-TPPK4", "-P18F4550", "-Fprogram.hex", "-MP",
      "-YP", "-W3.3", "-E", "-OD", "-OL"][2]? = some ("-P" ++ "18F4550")) :=
  ⟨by decide,
   (build_part_token_normalized
      ⟨"PK4", "PIC18F4550", some "program.hex", "P", "P", some "3.3",
       true, true, true⟩ "ipecmd.exe" _ (by decide)).1
     "18F4550" (by decide)⟩

/-- C5: for a current version in `VERSION_CHOICES`, the suggestion list
has at most two entries, omits the current version, has no duplicate,
starts with the latest version whenever the current one is not the latest,
and every entry is the latest version or an index-neighbour of the current
version. -/
theorem version_suggestions_spec (v : String) (h : v ∈ VERSION_CHOICES) :
    (_get_version_suggestions v).length ≤ 2 ∧
    v ∉ _get_version_suggestions v ∧
    (_get_version_suggestions v).Nodup ∧
    (v ≠ VERSION_CHOICES.getLastD "" →
      (_get_version_suggestions v).head? = some (VERSION_CHOICES.getLastD "")) ∧
    (∀ x ∈ _get_version_suggestions v,
      x = VERSION_CHOICES.getLastD "" ∨
      list_index VERSION_CHOICES x + 1 = list_index VERSION_CHOICES v ∨
      list_index VERSION_CHOICES x = list_index VERSION_CHOICES v + 1) := by
  fin_cases h <;> decide

theorem version_suggestions_spec_witness :
    ("6.00" ∈ VERSION_CHOICES) ∧
    ((_get_version_suggestions "6.00").length ≤ 2 ∧
     "6.00" ∉ _get_version_suggestions "6.00" ∧
     (_get_version_suggestions "6.00").Nodup ∧
     ("6.00" ≠ VERSION_CHOICES.getLastD "" →
       (_get_version_suggestions "6.00").head? =
         some (VERSION_CHOICES.getLastD "")) ∧
     (∀ x ∈ _get_version_suggestions "6.00",
       x = VERSION_CHOICES.getLastD "" ∨
       list_index VERSION_CHOICES x + 1 = list_index VERSION_CHOICES "6.00" ∨
       list_index VERSION_CHOICES x = list_index VERSION_CHOICES "6.00" + 1)) :=
  ⟨by decide, version_suggestions_spec "6.00" (by decide)⟩

/-- C8: a spawn exception in `execute_programming` is caught and reported
as the failure outcome `false`, never propagated. -/
theorem execute_programming_exception_is_failure (cmd_args : List String)
    (part tool : String) (ipecmd_version : Option String) (msg : String) :
    execute_programming cmd_args part tool ipecmd_version
      (SpawnOutcome.exc msg) = false := rfl

/-- C9: the programmer-detection probe embeds the part identifier verbatim
("-P" ++ part, no "PIC"-stripping) and its token set is exactly
[path, "-" ++ mapped tool option, "-P" ++ part, "-OK"]; stripping would
have changed the token whenever the part begins with "PIC". -/
theorem detect_programmer_cmd_verbatim (ipecmd_path part tool tool_option : String)
    (h : TOOL_MAP tool = some tool_option) :
    detect_programmer_test_cmd ipecmd_path part tool =
      some [ipecmd_path, "-" ++ tool_option, "-P" ++ part, "-OK"] ∧
    (∀ r, part = "PIC" ++ r → "-P" ++ part ≠ "-P" ++ r) := by
  constructor
  · unfold detect_programmer_test_cmd
    rw [h]
    rfl
  · intro r hr he
    have hlen := congrArg (fun s : String => s.data.length) he
    simp only [data_append, List.length_append, hr] at hlen
    have h3 : "PIC".data.length = 3 := rfl
    rw [h3] at hlen
    omega

theorem detect_programmer_cmd_verbatim_witness :
    (TOOL_MAP "PK4" = some "TPPK4") ∧
    (detect_programmer_test_cmd "ipecmd.exe" "PIC18F4550" "PK4" =
      some ["ipecmd.exe", "-" ++ "TPPK4", "-P" ++ "PIC18F4550", "-OK"] ∧
     (∀ r, "PIC18F4550" = "PIC" ++ r →
       "-P" ++ "PIC18F4550" ≠ "-P" ++ r)) :=
  ⟨by decide,
   detect_programmer_cmd_verbatim "ipecmd.exe" "PIC18F4550" "PK4" "TPPK4"
     (by decide)⟩

/-- C10: for a current version outside `VERSION_CHOICES`, the suggestion
function returns the empty list. -/
theorem version_suggestions_unknown_empty (v : String)
    (h : v ∉ VERSION_CHOICES) : _get_version_suggestions v = [] := by
  unfold _get_version_suggestions
  simp [h]

theorem version_suggestions_unknown_empty_witness :
    ("7.00" ∉ VERSION_CHOICES) ∧ _get_version_suggestions "7.00" = [] :=
  ⟨by decide, version_suggestions_unknown_empty "7.00" (by decide)⟩

theorem mem_ite_singleton {c : Prop} [Decidable c] {α : Type} {a x : α}
    (h : a ∈ (if c then [x] else [])) : a = x := by
  split at h
  · simpa using h
  · simp at h

theorem mem_ite_two {c : Prop} [Decidable c] {α : Type} {a x y : α}
    (h : a ∈ (if c then [x] else [y])) : a = x ∨ a = y := by
  split at h
  · exact Or.inl (by simpa using h)
  · exact Or.inr (by simpa using h)

theorem mem_match_opt {o : Option String} {a pre : String}
    (h : a ∈ (match o with
      | some f => if f ≠ "" then [pre ++ f] else []
      | none => ([] : List String))) : ∃ f, a = pre ++ f := by
  cases o with
  | none => simp at h
  | some f => exact ⟨f, mem_ite_singleton h⟩

set_option maxHeartbeats 1600000 in
theorem TOOL_MAP_inv {t o : String} (h : TOOL_MAP t = some o) :
    o = "TPPK3" ∨ o = "TPPK4" ∨ o = "TPPK5" ∨ o = "TPICD3" ∨ o = "TPICD4" ∨
    o = "TPICD5" ∨ o = "TPICE4" ∨ o = "TPRICE" ∨ o = "TPSNAP" ∨ o = "TPPM3" ∨
    o = "TPPKOB" ∨ o = "TPPKOB4" ∨ o = "TPJ32" := by
  unfold TOOL_MAP at h
  split at h
  all_goals first
    | exact Option.noConfusion h
    | (injection h with h; subst h; tauto)

/-- C4: the built token list always carries a program-memory flag — the
bare "-M" when no region selector was given, "-M" immediately followed by
the selector otherwise — and carries a verify token "-Y…" exactly when a
verify selector was supplied (no bare default). -/
theorem build_memory_verify_flags (args : Args) (path : String)
    (cmd : List String) (hpath : ∀ v, path ≠ "-Y" ++ v)
    (hb : build_ipecmd_command args path = some cmd) :
    (args.memory = "" → "-M" ∈ cmd) ∧
    (args.memory ≠ "" → ("-M" ++ args.memory) ∈ cmd) ∧
    (args.verify ≠ "" → ("-Y" ++ args.verify) ∈ cmd) ∧
    (args.verify = "" → ∀ v, ("-Y" ++ v) ∉ cmd) := by
  unfold build_ipecmd_command at hb
  cases htool : TOOL_MAP args.tool with
  | none => rw [htool] at hb; cases hb
  | some topt =>
    rw [htool] at hb
    injection hb with hb
    subst hb
    refine ⟨fun hm => ?_, fun hm => ?_, fun hv => ?_, fun hv v hmem => ?_⟩
    · simp [hm]
    · simp [hm]
    · simp [hv]
    · have hver : (if args.verify ≠ "" then ["-Y" ++ args.verify] else []) =
          ([] : List String) := by rw [hv]; simp
      rw [hver] at hmem
      simp only [List.append_nil, List.mem_append] at hmem
      rcases hmem with (((((((h | h) | h) | h) | h) | h) | h) | h) | h
      · rw [List.mem_singleton] at h
        exact hpath v h.symm
      · rw [List.mem_singleton] at h
        rcases TOOL_MAP_inv htool with
          h' | h' | h' | h' | h' | h' | h' | h' | h' | h' | h' | h' | h'
        all_goals subst h'
        all_goals exact absurd h.symm (ne_append_right v 1 (by decide) (by decide))
      · rcases mem_ite_two h with h' | h' <;>
          exact absurd h'.symm
            (append_ne_append _ _ 1 (by decide) (by decide) (by decide))
      · obtain ⟨f, hf⟩ := mem_match_opt h
        exact absurd hf.symm
          (append_ne_append _ _ 1 (by decide) (by decide) (by decide))
      · rcases mem_ite_two h with h' | h'
        · exact absurd h'.symm
            (append_ne_append _ _ 1 (by decide) (by decide) (by decide))
        · exact absurd h'.symm (ne_append_right v 1 (by decide) (by decide))
      · obtain ⟨p, hp⟩ := mem_match_opt h
        exact absurd hp.symm
          (append_ne_append _ _ 1 (by decide) (by decide) (by decide))
      · have h' := mem_ite_singleton h
        exact absurd h'.symm (ne_append_right v 1 (by decide) (by decide))
      · have h' := mem_ite_singleton h
        exact absurd h'.symm (ne_append_right v 1 (by decide) (by decide))
      · have h' := mem_ite_singleton h
        exact absurd h'.symm (ne_append_right v 1 (by decide) (by decide))

theorem build_memory_verify_flags_witness :
    ((∀ v : String, "ipecmd.exe" ≠ "-Y" ++ v) ∧
     build_ipecmd_command
       ⟨"PK3", "PIC16F876A", some "test.hex", "", "", some "5.0",
        false, false, false⟩ "ipecmd.exe" =
       some ["ipecmd.exe", "-TPPK3", "-P16F876A", "-Ftest.hex", "-M", "-W5.0"]) ∧
    (("" : String) = "" →
      "-M" ∈ ["ipecmd.exe", "-TPPK3", "-P16F876A", "-Ftest.hex", "-M", "-W5.0"]) ∧
    (("" : String) ≠ "" → ("-M" ++ "") ∈
      ["ipecmd.exe", "-TPPK3", "-P16F876A", "-Ftest.hex", "-M", "-W5.0"]) ∧
    (("" : String) ≠ "" → ("-Y" ++ "") ∈
      ["ipecmd.exe", "-TPPK3", "-P16F876A", "-Ftest.hex", "-M", "-W5.0"]) ∧
    (("" : String) = "" → ∀ v, ("-Y" ++ v) ∉
      ["ipecmd.exe", "-TPPK3", "-P16F876A", "-Ftest.hex", "-M", "-W5.0"]) :=
  ⟨⟨fun v => ne_append_right v 0 (by decide) (by decide), by decide⟩,
   build_memory_verify_flags
     ⟨"PK3", "PIC16F876A", some "test.hex", "", "", some "5.0",
      false, false, false⟩ "ipecmd.exe" _
     (fun v => ne_append_right v 0 (by decide) (by decide)) (by decide)⟩

/-- C7: without a custom path, path resolution for any OS and version
yields a path that ends in the OS-correct executable filename
("ipecmd.exe" on win32, "ipecmd" elsewhere) and contains the
slash-delimited segment "v" followed by the version string. -/
theorem get_ipecmd_path_shape (os : OS) (v : String) (d : Option String)
    (p : String) (h : get_ipecmd_path os (some v) none d = Except.ok p) :
    (∃ q, p = q ++ os_exe_name os) ∧
    (os = OS.win32 → os_exe_name os = "ipecmd.exe") ∧
    (os ≠ OS.win32 → os_exe_name os = "ipecmd") ∧
    (∃ q r, p = q ++ ("/v" ++ v ++ "/") ++ r) := by
  have hp : p = os_base_dir os ++ "/v" ++ v ++ "/mplab_platform/mplab_ipe/"
      ++ os_exe_name os := by
    simp only [get_ipecmd_path, Except.ok.injEq] at h
    exact h.symm
  refine ⟨⟨os_base_dir os ++ "/v" ++ v ++ "/mplab_platform/mplab_ipe/", hp⟩,
    ?_, ?_, ?_⟩
  · intro how
    subst how
    rfl
  · intro how
    cases os with
    | win32 => exact absurd rfl how
    | darwin => rfl
    | linux => rfl
  · refine ⟨os_base_dir os,
      "mplab_platform/mplab_ipe/" ++ os_exe_name os, ?_⟩
    rw [hp]
    apply string_ext
    simp [data_append, List.append_assoc]

theorem get_ipecmd_path_shape_witness :
    (∃ q, ("C:/Program Files/Microchip/MPLABX/v6.20/mplab_platform/mplab_ipe/ipecmd.exe" : String) =
      q ++ os_exe_name OS.win32) ∧
    (OS.win32 = OS.win32 → os_exe_name OS.win32 = "ipecmd.exe") ∧
    (OS.win32 ≠ OS.win32 → os_exe_name OS.win32 = "ipecmd") ∧
    (∃ q r, ("C:/Program Files/Microchip/MPLABX/v6.20/mplab_platform/mplab_ipe/ipecmd.exe" : String) =
      q ++ ("/v" ++ "6.20" ++ "/") ++ r) :=
  get_ipecmd_path_shape OS.win32 "6.20" none _ (by rfl)

/-- C1: evaluating the command builder at the spec's PK4 end-to-end
scenario: the part token the code emits is "-P18F4550" (the "PIC" prefix
is stripped), so the full token list differs from the claimed one, which
carries "-PPIC18F4550". -/
theorem build_pk4_scenario_actual :
    build_ipecmd_command
      ⟨"PK4", "PIC18F4550", some "program.hex", "P", "P", some "3.3",
       true, true, true⟩ "ipecmd.exe" =
      some ["ipecmd.exe", "-TPPK4", "-P18F4550", "-Fprogram.hex", "-MP",
            "-YP", "-W3.3", "-E", "-OD", "-OL"] ∧
    build_ipecmd_command
      ⟨"PK4", "PIC18F4550", some "program.hex", "P", "P", some "3.3",
       true, true, true⟩ "ipecmd.exe" ≠
      some ["ipecmd.exe", "-TPPK4", "-PPIC18F4550", "-Fprogram.hex", "-MP",
            "-YP", "-W3.3", "-E", "-OD", "-OL"] := by
  constructor <;> decide

/-- C6: a passthrough string containing one of the denied shell
metacharacters is rejected with the security `ValueError` — for every
tokenizer, i.e. before `shlex.split` is consulted and before any spawn —
while a string containing none of them passes the safety gate and, when
the tokenizer succeeds on it, reaches the spawn with the split tokens. -/
theorem passthrough_safety_gate (split : String → Option (List String))
    (ipecmd_path passthrough : String) :
    ((∃ c ∈ passthrough.data, c ∈ dangerous_chars) →
      run_cmd_with_passthrough_option split ipecmd_path passthrough =
        Except.error "Unsafe passthrough argument") ∧
    ((∀ c ∈ passthrough.data, c ∉ dangerous_chars) →
      is_safe_passthrough passthrough = true ∧
      ∀ toks, split passthrough = some toks →
        run_cmd_with_passthrough_option split ipecmd_path passthrough =
          Except.ok (ipecmd_path :: toks)) := by
  constructor
  · rintro ⟨c, hc, hcd⟩
    have hx : passthrough.data.any (fun c => dangerous_chars.contains c) = true :=
      List.any_eq_true.mpr ⟨c, hc, List.elem_iff.mpr hcd⟩
    have hbad : is_safe_passthrough passthrough = false := by
      unfold is_safe_passthrough
      rw [hx]
      rfl
    unfold run_cmd_with_passthrough_option
    rw [hbad]
    rfl
  · intro hall
    have hx : passthrough.data.any (fun c => dangerous_chars.contains c) = false :=
      List.any_eq_false.mpr (fun c hc hcon => hall c hc (List.elem_iff.mp hcon))
    have hsafe : is_safe_passthrough passthrough = true := by
      unfold is_safe_passthrough
      rw [hx]
      rfl
    refine ⟨hsafe, fun toks htoks => ?_⟩
    unfold run_cmd_with_passthrough_option
    rw [hsafe, htoks]
    rfl

theorem passthrough_safety_gate_witness :
    (run_cmd_with_passthrough_option (fun s => some [s]) "ipecmd" "-K; rm" =
      Except.error "Unsafe passthrough argument") ∧
    is_safe_passthrough "-K -I" = true ∧
    run_cmd_with_passthrough_option (fun s => some [s]) "ipecmd" "-K -I" =
      Except.ok ["ipecmd", "-K -I"] :=
  ⟨(passthrough_safety_gate (fun s => some [s]) "ipecmd" "-K; rm").1
     ⟨';', by decide, by decide⟩,
   ((passthrough_safety_gate (fun s => some [s]) "ipecmd" "-K -I").2
     (by decide)).1,
   ((passthrough_safety_gate (fun s => some [s]) "ipecmd" "-K -I").2
     (by decide)).2 ["-K -I"] rfl⟩

theorem passthrough_exit_code_spec (split : String → Option (List String))
    (ipecmd_path passthrough : String) (outcome : SpawnOutcome) :
    passthrough_exit_code split ipecmd_path passthrough outcome =
      if is_safe_passthrough passthrough &&
          (split passthrough).isSome then 0 else 1 := by
  unfold passthrough_exit_code run_cmd_passthrough_returns
  cases hs : is_safe_passthrough passthrough with
  | false => simp [hs]
  | true =>
    cases hsp : split passthrough with
    | none => simp [hs, hsp]
    | some toks => cases outcome <;> simp [hs, hsp]

theorem pic_resolve_path_isSome (os : OS) (args : PicArgs) (d : Option String)
    (h : optTruthy args.ipecmd_path = true ∨ optTruthy args.ipecmd_version = true) :
    ∃ p, pic_resolve_path os args d = some p := by
  unfold pic_resolve_path
  have hsome : ∀ o : Option String, optTruthy o = true → ∃ s, o = some s := by
    intro o ho
    cases o with
    | none => exact absurd ho (by simp [optTruthy])
    | some s => exact ⟨s, rfl⟩
  by_cases h1 : optTruthy args.ipecmd_path = true
  · obtain ⟨s, hs⟩ := hsome _ h1
    rw [if_pos h1, hs]
    exact ⟨s, rfl⟩
  · have h2 : optTruthy args.ipecmd_version = true := by
      rcases h with h | h
      · exact absurd h h1
      · exact h
    obtain ⟨v, hv⟩ := hsome _ h2
    rw [if_neg h1, if_pos h2, hv]
    refine ⟨os_base_dir os ++ "/v" ++ v ++ "/mplab_platform/mplab_ipe/"
      ++ os_exe_name os, ?_⟩
    simp [get_ipecmd_path]

theorem pic_exit_code_ite (c : Prop) [Decidable c] :
    pic_exit_code (if c then PicResult.ok else PicResult.exited 1) =
      if c then 0 else 1 := by
  split <;> rfl

theorem pic_exit_code_ok : pic_exit_code PicResult.ok = 0 := rfl

theorem pic_exit_code_exited (n : Nat) :
    pic_exit_code (PicResult.exited n) = n := rfl

theorem pic_exit_code_keyError : pic_exit_code PicResult.keyError = 1 := rfl

theorem pic_exit_code_spec (os : OS) (args : PicArgs) (d : Option String)
    (hex ipec : Bool) (dout pout : SpawnOutcome)
    (h : optTruthy args.ipecmd_path = true ∨ optTruthy args.ipecmd_version = true) :
    pic_exit_code (program_pic os args d hex ipec dout pout) =
      if pic_normal_success args hex ipec dout pout then 0 else 1 := by
  obtain ⟨p, hp⟩ := pic_resolve_path_isSome os args d h
  unfold program_pic
  rw [hp]
  by_cases hf : optTruthy args.toArgs.file = true <;>
    cases hex <;> cases ipec <;> cases htest : args.test_programmer <;>
    cases hTM : TOOL_MAP args.toArgs.tool <;> cases dout <;> cases pout <;>
      simp [pic_normal_success, pic_exit_code_ite, pic_exit_code_ok,
        pic_exit_code_exited, pic_exit_code_keyError,
        execute_programming, detect_programmer_result, proc_success,
        build_ipecmd_command, hf, hTM, htest]
  all_goals split <;>
    simp_all [pic_exit_code_ite, pic_exit_code_exited]

/-- C3 (amended): the process exit code of `cli.main` is always 0 or 1 and
equals 0 exactly on `cli_success`: in the programming flow every validation
or execution failure (including a non-zero vendor exit) exits 1, while in
the passthrough flow only the pre-spawn checks decide — an unsafe string
or a `shlex.split` tokenization failure exits 1, and otherwise the process
exits 0 whatever the vendor subprocess did. -/
theorem cli_exit_code_spec (os : OS) (split : String → Option (List String))
    (opts : CliOpts) (env : CliEnv) :
    cli_main_exit_code os split opts env =
      if cli_success split opts env then 0 else 1 := by
  unfold cli_main_exit_code cli_success
  by_cases hA : optTruthy opts.ipecmd_version = true
  · by_cases hP : optTruthy opts.passthrough = true
    · simp [hA, hP, passthrough_exit_code_spec]
    · cases hpart : opts.part with
      | none => simp [hA, hP, hpart, cli_normal_success]
      | some part =>
        cases htool : opts.tool with
        | none => simp [hA, hP, hpart, htool, cli_normal_success]
        | some tool =>
          simp [hA, hP, hpart, htool, pic_exit_code_spec,
            pic_normal_success, cli_normal_success]
  · by_cases hB : optTruthy opts.ipecmd_path = true
    · by_cases hP : optTruthy opts.passthrough = true
      · simp [hA, hB, hP, passthrough_exit_code_spec]
      · cases hpart : opts.part with
        | none => simp [hA, hB, hP, hpart, cli_normal_success]
        | some part =>
          cases htool : opts.tool with
          | none => simp [hA, hB, hP, hpart, htool, cli_normal_success]
          | some tool =>
            simp [hA, hB, hP, hpart, htool, pic_exit_code_spec,
              pic_normal_success, cli_normal_success]
    · cases hauto : env.autodetected with
      | none => simp [hA, hB, hauto, optTruthy_none]
      | some vp =>
        obtain ⟨va, pa⟩ := vp
        by_cases hva : va = ""
        · have hva' : optTruthy (some va) = false := by simp [optTruthy, hva]
          simp [hA, hB, hauto, hva']
        · have hva' : optTruthy (some va) = true := by simp [optTruthy, hva]
          by_cases hP : optTruthy opts.passthrough = true
          · simp [hA, hB, hauto, hva', hP, passthrough_exit_code_spec]
          · cases hpart : opts.part with
            | none => simp [hA, hB, hauto, hva', hP, hpart, cli_normal_success]
            | some part =>
              cases htool : opts.tool with
              | none =>
                simp [hA, hB, hauto, hva', hP, hpart, htool, cli_normal_success]
              | some tool =>
                simp [hA, hB, hauto, hva', hP, hpart, htool, pic_exit_code_spec,
                  pic_normal_success, cli_normal_success]

/-- C3 counterexample: in the passthrough flow the vendor subprocess exits
with return code 1, yet the process exit code is 0 — the return code is
never inspected there, contradicting "non-zero exit on every execution
failure path". -/
theorem cli_passthrough_exit_zero_on_vendor_failure :
    cli_main_exit_code OS.linux (fun s => some [s])
      ⟨none, none, none, none, "", "", false, false, false, false,
       none, some "/usr/local/bin/ipecmd", some "-K"⟩
      ⟨none, none, true, true, SpawnOutcome.ok 0 "" "",
       SpawnOutcome.ok 0 "" "", SpawnOutcome.ok 1 "" ""⟩ = 0 := by
  rfl
